import Mathlib

/-!
# Verification of the peru-prices crawling pipeline

A shallow embedding of the core of the `peru-prices` repository
(`src/spiders/mod.rs`, `src/spiders/infinite_scrolling.rs`,
`src/spiders/metro.rs`, `src/spiders/multipage.rs`, `src/crawler.rs`):

* the price-string normalizer `parse_price` and the inline price closures
  of the item extractors;
* the `TryFrom<HashMap<..>>` record extractors of the three item types;
* the dedup step of `Spider::scrape_all` (a `HashSet` keyed by the
  identity-only `PartialEq`/`Hash` impls);
* the infinite-scroll convergence loop `scroll_to_end`;
* the count aggregation of `Crawler::process_all`.

Strings are modelled as `List Char`; Rust `f64` parsing is modelled over
`ℚ` (the concrete prices in play, such as `1234.5`, are exactly
representable in `f64`, and no claim depends on rounding); the non-finite
literals `inf`/`NaN` accepted by Rust are outside the model, since price
strings are finite decimals. Side effects (webdriver calls, sleeps,
logging, CSV output) are replaced by explicit inputs: the sequence of page
heights the driver would report, and the per-subroute / per-spider
outcomes.
-/

/-! ## Characters and pieces of `str` used by `parse_price`

`str::replace(pat, "")` removes every non-overlapping occurrence of `pat`,
scanning left to right.  The three patterns used by the source
(`"S/."`, `"S/"`, `","`) are fixed, so each removal is embedded as a
structurally recursive function on the character list. -/

/-- The characters Rust `str::trim` removes, restricted to the ASCII
whitespace that can occur in the scraped price strings. -/
def isWsChar (c : Char) : Bool :=
  c = ' ' || c = '\t' || c = '\n' || c = '\r'

/-- Model of `str::trim`: drop whitespace from both ends. -/
def trimChars (s : List Char) : List Char :=
  ((s.dropWhile isWsChar).reverse.dropWhile isWsChar).reverse

/-- Model of `.replace("S/.", "")`: remove every occurrence of `S/.`. -/
def removeSolDot : List Char → List Char
  | [] => []
  | [c] => [c]
  | [c, c2] => [c, c2]
  | c :: c2 :: c3 :: cs =>
    if c = 'S' ∧ c2 = '/' ∧ c3 = '.' then removeSolDot cs
    else c :: removeSolDot (c2 :: c3 :: cs)

/-- Model of `.replace("S/", "")`: remove every occurrence of `S/`. -/
def removeSol : List Char → List Char
  | [] => []
  | [c] => [c]
  | c :: c2 :: cs =>
    if c = 'S' ∧ c2 = '/' then removeSol cs
    else c :: removeSol (c2 :: cs)

/-- Model of `.replace(',', "")`: remove every comma. -/
def removeComma : List Char → List Char
  | [] => []
  | c :: cs => if c = ',' then removeComma cs else c :: removeComma cs

/-- Whether `pat` occurs as a contiguous substring of `s`. -/
def hasSubstr (pat : List Char) : List Char → Bool
  | [] => pat.isEmpty
  | c :: cs => pat.isPrefixOf (c :: cs) || hasSubstr pat cs

/-! ## Model of `str::parse::<f64>` on finite decimal strings

Grammar: optional sign, then digits with at most one decimal point (at
least one digit overall), then an optional `e`/`E` exponent with optional
sign and at least one digit, and nothing else.  The value is returned as
an exact rational. -/

def isDigitChar (c : Char) : Bool := '0' ≤ c && c ≤ '9'

def digitsToNat (ds : List Char) : Nat :=
  ds.foldl (fun acc c => acc * 10 + (c.toNat - 48)) 0

/-- Parse the optional exponent suffix after the mantissa (the part
after `e`/`E`): optional sign, at least one digit, nothing else.
Returns the exponent sign and magnitude. -/
def parseExpTail (s : List Char) : Option (Bool × Nat) :=
  let neg := match s with | '-' :: _ => true | _ => false
  let s2 := match s with | '+' :: r => r | '-' :: r => r | r => r
  let ds := s2.takeWhile isDigitChar
  let rest := s2.dropWhile isDigitChar
  if ds.isEmpty || !rest.isEmpty then none else some (neg, digitsToNat ds)

/-- After the digits of the mantissa: either the end of the string (no
exponent) or an exponent marker; any other character is a parse
failure. -/
def parseAfterMantissa : List Char → Option (Bool × Nat)
  | [] => some (false, 0)
  | c :: rest =>
    if c = 'e' ∨ c = 'E' then parseExpTail rest else none

/-- The exact value of the decimal `m / 10^scale * 10^(±e)`, built with
the kernel-friendly `mkRat`. -/
def decValue (m : Nat) (scale : Nat) (eneg : Bool) (e : Nat) : ℚ :=
  if eneg then mkRat (m : Int) (10 ^ (scale + e))
  else mkRat ((m * 10 ^ e : Nat) : Int) (10 ^ scale)

/-- The unsigned part of the `f64` grammar: digits with at most one
decimal point (at least one digit overall), then an optional exponent. -/
def parseUnsignedF64 (s : List Char) : Option ℚ :=
  let ip := s.takeWhile isDigitChar
  let r1 := s.dropWhile isDigitChar
  match r1 with
  | '.' :: r2 =>
    let fp := r2.takeWhile isDigitChar
    let r3 := r2.dropWhile isDigitChar
    if ip.isEmpty && fp.isEmpty then none
    else (parseAfterMantissa r3).map
      (fun p => decValue (digitsToNat (ip ++ fp)) fp.length p.1 p.2)
  | _ =>
    if ip.isEmpty then none
    else (parseAfterMantissa r1).map
      (fun p => decValue (digitsToNat ip) 0 p.1 p.2)

/-- Model of `str::parse::<f64>` (finite values). -/
def parseF64 : List Char → Option ℚ
  | '+' :: rest => parseUnsignedF64 rest
  | '-' :: rest => (parseUnsignedF64 rest).map (fun q => -q)
  | s => parseUnsignedF64 s

/-! ## Error type and the price normalizers -/

/-- Model of `SpiderError` from `src/spiders/mod.rs`.  The `UnexpectedError`
variant wraps an `anyhow` cause chain; the model keeps its top context
message. -/
inductive SpiderError where
  | invalidSelector (s : String)
  | noDataExtracted (s : String)
  | unexpectedError (s : String)
deriving Repr, DecidableEq

deriving instance DecidableEq for Except

/-- Model of `parse_price` from `src/spiders/mod.rs` (lines 74-83): strip `S/.`,
then `S/`, then commas, trim, and parse as `f64`, attaching the
`Failed to parse price from` context on failure. -/
def parse_price (x : List Char) : Except SpiderError ℚ :=
  match parseF64 (trimChars (removeComma (removeSol (removeSolDot x)))) with
  | some v => Except.ok v
  | none => Except.error
      (SpiderError.unexpectedError
        ("Failed to parse price from: \"" ++ String.mk x ++ "\""))

/-- The inline price closure in `InfiniteScrollingItem::try_from`
(`infinite_scrolling.rs` lines 183-192) and `MetroItem::try_from`
(`metro.rs` lines 155-164): it strips `S/.` and commas but, unlike
`parse_price`, has no `.replace("S/", "")` step. -/
def inline_price (x : List Char) : Except SpiderError ℚ :=
  match parseF64 (trimChars (removeComma (removeSolDot x))) with
  | some v => Except.ok v
  | none => Except.error
      (SpiderError.unexpectedError
        ("Failed to parse price from: \"" ++ String.mk x ++ "\""))

/-- The price-field handling of `MultipageItem::try_from`
(`multipage.rs` line 133) simply calls the shared `parse_price`. -/
def multipage_price (x : List Char) : Except SpiderError ℚ :=
  parse_price x

/-! ## Records and their extractors

The raw attribute map of one HTML node (`element.value().attrs()` into a
`HashMap`) is modelled as an association list; HTML attribute keys are
unique per element, and `HashMap::remove(k)` is modelled as `lookup`
of the first binding plus `removeKey`, which drops the bindings of `k`. -/

/-- A raw attribute map, string keys to string values. -/
def AttrMap : Type := List (String × String)

/-- The map after `HashMap::remove(k)`: all bindings of `k` dropped. -/
def removeKey (m : AttrMap) (k : String) : AttrMap :=
  List.filter (fun p => p.1 != k) m

/-- Stand-in for the debug formatting of the remaining map in the
`NoDataExtracted` payload.  The debug output of a Rust `HashMap` has
unspecified ordering, so no theorem inspects this string, only the error
constructor. -/
def mapDebug (m : AttrMap) : String :=
  String.intercalate ", " (List.map (fun p => p.1 ++ "=" ++ p.2) m)

/-- Model of `InfiniteScrollingItem` (`infinite_scrolling.rs` lines 145-153). -/
structure InfiniteScrollingItem where
  id : String
  brand : Option String
  uri : Option String
  name : Option String
  price : Option ℚ
  category : Option String
deriving Repr, DecidableEq

/-- The `PartialEq`/`Hash` impls for `InfiniteScrollingItem` (lines
155-169) compare and hash by `id` only, ignoring every other field. -/
def InfiniteScrollingItem.beq (a b : InfiniteScrollingItem) : Bool :=
  a.id == b.id

/-- Model of `MetroItem` (`metro.rs` lines 117-125), a field-for-field copy of
`InfiniteScrollingItem`. -/
structure MetroItem where
  id : String
  brand : Option String
  uri : Option String
  name : Option String
  price : Option ℚ
  category : Option String
deriving Repr, DecidableEq

/-- The `PartialEq`/`Hash` impls for `MetroItem` (lines 127-141): by `id` only. -/
def MetroItem.beq (a b : MetroItem) : Bool :=
  a.id == b.id

/-- Model of `MultipageItem` (`multipage.rs` lines 94-102). -/
structure MultipageItem where
  sku : String
  name : Option String
  brand : Option String
  category : Option String
  uri : Option String
  price : Option ℚ
deriving Repr, DecidableEq

/-- The `PartialEq`/`Hash` impls for `MultipageItem` (lines 104-118): by `sku`
only. -/
def MultipageItem.beq (a b : MultipageItem) : Bool :=
  a.sku == b.sku

/-- Model of `TryFrom<HashMap<&str, &str>> for InfiniteScrollingItem`
(`infinite_scrolling.rs` lines 171-212).  The missing-identity failure is
the `anyhow` context `Failed to obtain item id` converted into
`SpiderError::UnexpectedError`; the `?` on the price parse is the middle
`match`; the final check rejects a node whose optional fields are all
absent as `NoDataExtracted`. -/
def InfiniteScrollingItem.try_from (m0 : AttrMap) :
    Except SpiderError InfiniteScrollingItem :=
  match List.lookup "data-id" m0 with
  | none => Except.error (SpiderError.unexpectedError "Failed to obtain item id")
  | some idv =>
    let m1 := removeKey m0 "data-id"
    let brand := List.lookup "data-brand" m1
    let m2 := removeKey m1 "data-brand"
    let uri := List.lookup "data-uri" m2
    let m3 := removeKey m2 "data-uri"
    let nm := List.lookup "data-name" m3
    let m4 := removeKey m3 "data-name"
    let priceRes : Except SpiderError (Option ℚ) :=
      match List.lookup "data-price" m4 with
      | none => Except.ok none
      | some x =>
        match inline_price x.data with
        | Except.ok v => Except.ok (some v)
        | Except.error e => Except.error e
    match priceRes with
    | Except.error e => Except.error e
    | Except.ok pricev =>
      let m5 := removeKey m4 "data-price"
      let category := List.lookup "data-category" m5
      let m6 := removeKey m5 "data-category"
      if brand.isNone && uri.isNone && nm.isNone && pricev.isNone
          && category.isNone then
        Except.error (SpiderError.noDataExtracted (mapDebug m6))
      else
        Except.ok { id := idv, brand := brand, uri := uri, name := nm,
                    price := pricev, category := category }

/-- Model of `TryFrom<HashMap<&str, &str>> for MetroItem` (`metro.rs` lines
143-184), textually the same algorithm as the infinite-scrolling one. -/
def MetroItem.try_from (m0 : AttrMap) : Except SpiderError MetroItem :=
  match List.lookup "data-id" m0 with
  | none => Except.error (SpiderError.unexpectedError "Failed to obtain item id")
  | some idv =>
    let m1 := removeKey m0 "data-id"
    let brand := List.lookup "data-brand" m1
    let m2 := removeKey m1 "data-brand"
    let uri := List.lookup "data-uri" m2
    let m3 := removeKey m2 "data-uri"
    let nm := List.lookup "data-name" m3
    let m4 := removeKey m3 "data-name"
    let priceRes : Except SpiderError (Option ℚ) :=
      match List.lookup "data-price" m4 with
      | none => Except.ok none
      | some x =>
        match inline_price x.data with
        | Except.ok v => Except.ok (some v)
        | Except.error e => Except.error e
    match priceRes with
    | Except.error e => Except.error e
    | Except.ok pricev =>
      let m5 := removeKey m4 "data-price"
      let category := List.lookup "data-category" m5
      let m6 := removeKey m5 "data-category"
      if brand.isNone && uri.isNone && nm.isNone && pricev.isNone
          && category.isNone then
        Except.error (SpiderError.noDataExtracted (mapDebug m6))
      else
        Except.ok { id := idv, brand := brand, uri := uri, name := nm,
                    price := pricev, category := category }

/-- Model of `TryFrom<HashMap<String, String>> for MultipageItem` (`multipage.rs`
lines 120-153).  The price comes from `data-price`, falling back to
`.Showcase__salePrice`, via `map.get` (no removal) and the shared
`parse_price`. -/
def MultipageItem.try_from (m0 : AttrMap) : Except SpiderError MultipageItem :=
  match List.lookup "data-sku" m0 with
  | none => Except.error (SpiderError.unexpectedError "Failed to obtain item id")
  | some sku =>
    let m1 := removeKey m0 "data-sku"
    let nm := List.lookup "title" m1
    let m2 := removeKey m1 "title"
    let brand := List.lookup ".Showcase__brand a" m2
    let m3 := removeKey m2 ".Showcase__brand a"
    let category := List.lookup "category" m3
    let m4 := removeKey m3 "category"
    let uri := List.lookup "href" m4
    let m5 := removeKey m4 "href"
    let priceRes : Except SpiderError (Option ℚ) :=
      match (List.lookup "data-price" m5).orElse
          (fun _ => List.lookup ".Showcase__salePrice" m5) with
      | none => Except.ok none
      | some x =>
        match parse_price x.data with
        | Except.ok v => Except.ok (some v)
        | Except.error e => Except.error e
    match priceRes with
    | Except.error e => Except.error e
    | Except.ok pricev =>
      if nm.isNone && brand.isNone && category.isNone && uri.isNone
          && pricev.isNone then
        Except.error (SpiderError.noDataExtracted (mapDebug m5))
      else
        Except.ok { sku := sku, name := nm, brand := brand,
                    category := category, uri := uri, price := pricev }

/-- Is the result the `NoDataExtracted` (not-a-product) failure? -/
def isNoDataError {α : Type} : Except SpiderError α → Bool
  | Except.error (SpiderError.noDataExtracted _) => true
  | _ => false

/-! ## Dedup, per-subroute extraction and `scrape_all`

`collect::<HashSet<_>>()` inserts items in order; an insert whose equal
element (equality is the identity-only `beq`) is already present leaves
the set unchanged.  The set is modelled as the list of kept elements;
iteration order of the Rust `HashSet` is arbitrary anyway, and no claim
depends on it. -/

/-- One `HashSet::insert`: keep the set unchanged when an `eq`-equal
element is already present. -/
def hashsetInsert {α : Type} (eq : α → α → Bool) (acc : List α) (x : α) :
    List α :=
  if acc.any (fun y => eq y x) then acc else acc ++ [x]

/-- Model of `collect::<HashSet<_>>()` over a list. -/
def dedupBy {α : Type} (eq : α → α → Bool) (l : List α) : List α :=
  l.foldl (hashsetInsert eq) []

/-- The per-subroute node-processing tail of `scrape` (e.g.
`infinite_scrolling.rs` lines 254-268): run `try_from` on the attribute map of every node
attribute map, drop the failures (`filter_map`), and dedup into a
`HashSet`. -/
def extractItems {α : Type} (tryF : AttrMap → Except SpiderError α)
    (eq : α → α → Bool) (maps : List AttrMap) : List α :=
  dedupBy eq (maps.filterMap (fun m => (tryF m).toOption))

/-- Model of `Spider::scrape_all` (`mod.rs` lines 42-71), applied to the list of
per-subroute `scrape` outcomes: failed subroutes are dropped by the
`filter_map`, the successful item lists are flattened, and the result is
deduplicated through a `HashSet` keyed by the identity-only item
equality.  The inter-subroute delay, URL formatting and
`buffer_unordered` scheduling do not affect which records survive. -/
def Spider.scrape_all {α : Type} (eq : α → α → Bool)
    (results : List (Except SpiderError (List α))) : List α :=
  dedupBy eq (List.flatten (results.filterMap Except.toOption))

/-! ## The convergence loop `scroll_to_end`

`InfiniteScrollingSpider::scroll_to_end` (`infinite_scrolling.rs` lines
123-142) and `MetroSpider::scroll_to_end` (`metro.rs` lines 95-114) are
the same loop.  `hs k` is the height the driver reports at the `k`-th
read: `hs 0` is the read before the loop, `hs n` (for `n ≥ 1`) the read
after the `n`-th scroll command.  The loop has no iteration bound in the
source, so the model takes a fuel argument and returns `some n` — the
number of scroll commands issued — when the loop breaks within fuel,
`none` otherwise. -/

/-- The body of the `loop` in `scroll_to_end`: scroll (read index `n`),
compare with the previous height, bump the counter `i` on equality,
break once `i` reaches `scroll_checks`, and carry `height = new_height`
into the next iteration.  The counter is never reset. -/
def scroll_to_end_loop (scroll_checks : Nat) (hs : Nat → Int)
    (height : Int) (i n fuel : Nat) : Option Nat :=
  match fuel with
  | 0 => none
  | fuel + 1 =>
    let new_height := hs n
    let i2 := if new_height = height then i + 1 else i
    if scroll_checks ≤ i2 then some n
    else scroll_to_end_loop scroll_checks hs new_height i2 (n + 1) fuel

/-- Model of `scroll_to_end`: read the initial height, then loop. -/
def scroll_to_end (scroll_checks : Nat) (hs : Nat → Int) (fuel : Nat) :
    Option Nat :=
  scroll_to_end_loop scroll_checks hs (hs 0) 0 1 fuel

/-- Modelled from the spec: the convergence poller of the spec resets the
stability counter to zero whenever the newly read height differs from
the previous one (`If h1 != h0: reset the stability counter to zero`),
a step the source loop does not have.  Used only to compare behaviours
with `scroll_to_end`. -/
def scroll_to_end_spec_loop (scroll_checks : Nat) (hs : Nat → Int)
    (height : Int) (i n fuel : Nat) : Option Nat :=
  match fuel with
  | 0 => none
  | fuel + 1 =>
    let new_height := hs n
    let i2 := if new_height = height then i + 1 else 0
    if scroll_checks ≤ i2 then some n
    else scroll_to_end_spec_loop scroll_checks hs new_height i2 (n + 1) fuel

/-- The poller of the spec, started like `scroll_to_end`. -/
def scroll_to_end_spec (scroll_checks : Nat) (hs : Nat → Int)
    (fuel : Nat) : Option Nat :=
  scroll_to_end_spec_loop scroll_checks hs (hs 0) 0 1 fuel

/-- The number of no-growth observations among the first `n` reads after
scrolls: the count of `k ∈ [1, n]` with `hs k = hs (k-1)`. -/
def eqCount (hs : Nat → Int) : Nat → Nat
  | 0 => 0
  | n + 1 => eqCount hs n + (if hs (n + 1) = hs n then 1 else 0)

/-! ## The orchestrator `Crawler::process_all` -/

/-- Model of `CrawlerError` from `src/crawler.rs` (lines 14-20). -/
inductive CrawlerError where
  | outPathNoDir (p : String)
  | unexpectedError (s : String)
deriving Repr, DecidableEq

/-- The count a spider contributes to the total: its `process_one`
record count, or `0` when its processing failed. -/
def spider_count : Except CrawlerError Nat → Nat
  | Except.ok n => n
  | Except.error _ => 0

/-- Model of `Crawler::process_all` (`crawler.rs` lines 61-76), applied to the
per-spider `process_one` outcomes: failed spiders are dropped by the
`filter_map` (after logging) and the remaining counts are summed.
`buffer_unordered` only permutes the outcomes, which cannot change the
sum. -/
def process_all (results : List (Except CrawlerError Nat)) : Nat :=
  (results.filterMap Except.toOption).sum

/-! ## Helper lemmas -/

/-- Any state reachable inside `scroll_to_end` has the shape
`(height, i, n) = (hs n, eqCount hs n, n + 1)`: if the loop breaks at
read `m`, the cumulative no-growth count has reached `scroll_checks`
there, and had not at any earlier read. -/
theorem scroll_to_end_loop_cumulative (scroll_checks : Nat)
    (hs : Nat → Int) :
    ∀ fuel n m,
      scroll_to_end_loop scroll_checks hs (hs n) (eqCount hs n) (n + 1)
        fuel = some m →
      scroll_checks ≤ eqCount hs m ∧
        ∀ k, n < k → k < m → eqCount hs k < scroll_checks := by
  intro fuel
  induction fuel with
  | zero => intro n m h; simp [scroll_to_end_loop] at h
  | succ fuel ih =>
    intro n m h
    simp only [scroll_to_end_loop] at h
    have hi2 : (if hs (n + 1) = hs n then eqCount hs n + 1
        else eqCount hs n) = eqCount hs (n + 1) := by
      by_cases hc : hs (n + 1) = hs n <;> simp [eqCount, hc]
    rw [hi2] at h
    by_cases hstop : scroll_checks ≤ eqCount hs (n + 1)
    · rw [if_pos hstop] at h
      obtain rfl : n + 1 = m := Option.some.inj h
      exact ⟨hstop, fun k hk1 hk2 => by omega⟩
    · rw [if_neg hstop] at h
      obtain ⟨h1, h2⟩ := ih (n + 1) m h
      refine ⟨h1, fun k hk1 hk2 => ?_⟩
      rcases Nat.lt_or_ge (n + 1) k with hk | hk
      · exact h2 k hk hk2
      · have : k = n + 1 := by omega
        subst this
        exact Nat.lt_of_not_le hstop

/-- The height sequence of C1: `[100, 100, 150, 150, 150, ...]` — one
stalled reading, then growth, then a plateau. -/
def heightsStallGrowStall : Nat → Int :=
  fun n => if n ≤ 1 then 100 else 150

/-- C1: the source convergence loop resets nothing: on
`[100, 100, 150, 150, ...]` with `scroll_checks = 2` it stops at the
first post-growth repeat (3 scroll commands), which the claim says must
not happen; a loop with the reset step of the spec stops only at the second
consecutive repeat (4 scroll commands). -/
theorem scroll_counter_never_reset_counterexample :
    scroll_to_end 2 heightsStallGrowStall 100 = some 3 ∧
    scroll_to_end_spec 2 heightsStallGrowStall 100 = some 4 := by
  constructor <;> decide

/-- C1 (amended): whenever a newly read height differs from the previous
one the stability counter is left unchanged, never reset, so the loop
stops at the first read at which the *cumulative* number of no-growth
observations — consecutive or not — reaches `scroll_checks`. -/
theorem scroll_to_end_cumulative (scroll_checks : Nat) (hs : Nat → Int)
    (fuel m : Nat) (h : scroll_to_end scroll_checks hs fuel = some m) :
    scroll_checks ≤ eqCount hs m ∧
      ∀ k, 0 < k → k < m → eqCount hs k < scroll_checks := by
  refine scroll_to_end_loop_cumulative scroll_checks hs fuel 0 m ?_
  simpa [scroll_to_end, eqCount] using h

/-- Witness for the amended C1 at the C1 height sequence: the loop stops
at read 3 and by then 2 cumulative no-growth observations occurred. -/
theorem scroll_to_end_cumulative_witness :
    2 ≤ eqCount heightsStallGrowStall 3 :=
  (scroll_to_end_cumulative 2 heightsStallGrowStall 100 3 (by decide)).1

/-- The height sequence `[100, 150, 150, 150, ...]`. -/
def heightsGrowThenStall : Nat → Int :=
  fun n => if n = 0 then 100 else 150

/-- The height sequence `[100, 150, 120, 150, 150, 150, ...]`. -/
def heightsDipThenStall : Nat → Int :=
  fun n => if n = 0 then 100 else if n = 1 then 150 else
    if n = 2 then 120 else 150

/-- C2: with `scroll_checks = 2`, on heights `[100, 150, 150, 150]` the
loop stops after exactly 3 scroll commands, and on
`[100, 150, 120, 150, 150, 150]` the intermediate drop to 120 leaves the
counter at zero, so the loop stops only after the two consecutive
repeats at the end, with 5 scroll commands issued. -/
theorem scroll_to_end_examples :
    scroll_to_end 2 heightsGrowThenStall 100 = some 3 ∧
    scroll_to_end 2 heightsDipThenStall 100 = some 5 := by
  constructor <;> decide

/-- C10: with `scroll_checks = 0` the stop test `i >= scroll_checks`
holds at the end of the first iteration whatever the heights are, so
`scroll_to_end` issues exactly one scroll command and terminates (the
same loop appears in `metro.rs`). -/
theorem scroll_to_end_zero_checks (hs : Nat → Int) (fuel : Nat) :
    scroll_to_end 0 hs (fuel + 1) = some 1 := by
  rw [scroll_to_end, scroll_to_end_loop]
  simp

/-- If `S/` does not occur in `s`, stripping it is a no-op. -/
theorem removeSol_of_no_occurrence :
    ∀ s : List Char, hasSubstr ['S', '/'] s = false → removeSol s = s
  | [], _ => rfl
  | [c], _ => rfl
  | c :: c2 :: cs, h => by
    rw [hasSubstr] at h
    rcases Bool.or_eq_false_iff.mp h with ⟨h1, h2⟩
    rw [removeSol, if_neg ?hneg]
    case hneg =>
      rintro ⟨hc, hc2⟩
      subst hc; subst hc2
      simp [List.isPrefixOf] at h1
    have h3 : hasSubstr ['S', '/'] (c2 :: cs) = false := h2
    rw [removeSol_of_no_occurrence (c2 :: cs) h3]

/-- C4: the claim fails — `parse_price` additionally strips the bare
`S/` currency marker, which the inline price handler of the
infinite-scrolling and metro extractors does not: on the raw string
`S/10` the shared normalizer succeeds with `10` while the inline handler
fails. -/
theorem price_handlers_differ_counterexample :
    parse_price "S/10".data = Except.ok (10 : ℚ) ∧
    (inline_price "S/10".data).toOption = none := by
  constructor <;> decide

/-- C4 (amended): the price handling of the multipage extractor is exactly
`parse_price`; the inline handler of the infinite-scrolling and metro
extractors strips only `S/.` and commas — not the bare `S/` marker — so
it agrees with `parse_price` (same successes, same failures, same
values) exactly on the raw strings in which no `S/` occurrence is left
after the `S/.` strip. -/
theorem inline_price_agrees_with_parse_price (x : List Char)
    (h : hasSubstr ['S', '/'] (removeSolDot x) = false) :
    inline_price x = parse_price x ∧ multipage_price x = parse_price x := by
  refine ⟨?_, rfl⟩
  rw [parse_price, inline_price, removeSol_of_no_occurrence _ h]

/-- Witness for the amended C4 on `S/. 1,234.50` (no bare `S/` remains
once `S/.` is stripped). -/
theorem inline_price_agrees_with_parse_price_witness :
    inline_price "S/. 1,234.50".data = parse_price "S/. 1,234.50".data :=
  (inline_price_agrees_with_parse_price "S/. 1,234.50".data (by decide)).1

/-- C5: `parse_price` maps `"S/. 1,234.50"` to `1234.5` and `"12.0"` to
`12.0`, and fails on `"abc"` with the price-parse error (the
`Failed to parse price from` context wrapped in
`SpiderError::UnexpectedError`). -/
theorem parse_price_examples :
    parse_price "S/. 1,234.50".data = Except.ok (1234.5 : ℚ) ∧
    parse_price "12.0".data = Except.ok (12.0 : ℚ) ∧
    parse_price "abc".data = Except.error
      (SpiderError.unexpectedError "Failed to parse price from: \"abc\"") := by
  refine ⟨?_, ?_, by decide⟩
  · have h : parse_price "S/. 1,234.50".data = Except.ok (mkRat 123450 100) := by
      decide
    rw [h]
    norm_num [Rat.mkRat_eq_div]
  · have h : parse_price "12.0".data = Except.ok (mkRat 120 10) := by decide
    rw [h]
    norm_num [Rat.mkRat_eq_div]

/-- Whatever the insertion order and the Boolean equality `eq`, the list
built by repeated `hashsetInsert` never holds two `eq`-equal elements. -/
theorem dedupBy_pairwise {α : Type} (eq : α → α → Bool) (l : List α) :
    (dedupBy eq l).Pairwise (fun a b => eq a b = false) := by
  have key : ∀ (l acc : List α),
      acc.Pairwise (fun a b => eq a b = false) →
      (l.foldl (hashsetInsert eq) acc).Pairwise
        (fun a b => eq a b = false) := by
    intro l
    induction l with
    | nil => intro acc h; exact h
    | cons x xs ih =>
      intro acc h
      refine ih _ ?_
      by_cases hany : acc.any (fun y => eq y x) = true
      · simpa [hashsetInsert, hany] using h
      · rw [hashsetInsert, if_neg hany, List.pairwise_append]
        refine ⟨h, List.pairwise_singleton _ _, ?_⟩
        intro a ha b hb
        rw [List.mem_singleton] at hb
        rw [hb]
        have hfa : ∀ y ∈ acc, ¬ eq y x = true := by
          intro y hy hxy
          exact hany (List.any_eq_true.mpr ⟨y, hy, hxy⟩)
        exact Bool.eq_false_iff.mpr (hfa a ha)
  exact key l [] List.Pairwise.nil

/-- C3: whatever the per-subroute outcomes, the record list returned by
`scrape_all` is duplicate-free under the identity-only item equality:
no two output records share an `id` (resp. `sku`), all other fields
disregarded, for each of the three spiders. -/
theorem scrape_all_no_duplicate_identity
    (rs1 : List (Except SpiderError (List InfiniteScrollingItem)))
    (rs2 : List (Except SpiderError (List MetroItem)))
    (rs3 : List (Except SpiderError (List MultipageItem))) :
    (Spider.scrape_all InfiniteScrollingItem.beq rs1).Pairwise
      (fun a b => a.id ≠ b.id) ∧
    (Spider.scrape_all MetroItem.beq rs2).Pairwise
      (fun a b => a.id ≠ b.id) ∧
    (Spider.scrape_all MultipageItem.beq rs3).Pairwise
      (fun a b => a.sku ≠ b.sku) := by
  refine ⟨?_, ?_, ?_⟩ <;>
    exact (dedupBy_pairwise _ _).imp (fun h => ne_of_beq_false h)

/-- C8: a failing subroute contributes nothing and does not stop the
sibling subroute: with subroutes `[A, B]` where `A` fails with any error
and `B` scrapes 3 records with pairwise distinct identity keys,
`scrape_all` returns exactly those 3 records. -/
theorem scrape_all_failing_subroute_isolated (e : SpiderError)
    (r1 r2 r3 : InfiniteScrollingItem) (h12 : r1.id ≠ r2.id)
    (h13 : r1.id ≠ r3.id) (h23 : r2.id ≠ r3.id) :
    Spider.scrape_all InfiniteScrollingItem.beq
      [Except.error e, Except.ok [r1, r2, r3]] = [r1, r2, r3] := by
  have b12 : InfiniteScrollingItem.beq r1 r2 = false := by
    simp [InfiniteScrollingItem.beq, h12]
  have b13 : InfiniteScrollingItem.beq r1 r3 = false := by
    simp [InfiniteScrollingItem.beq, h13]
  have b23 : InfiniteScrollingItem.beq r2 r3 = false := by
    simp [InfiniteScrollingItem.beq, h23]
  simp [Spider.scrape_all, dedupBy, hashsetInsert, Except.toOption,
    b12, b13, b23]

/-- Witness for C8 at a failed subroute plus three concrete records. -/
theorem scrape_all_failing_subroute_isolated_witness :
    Spider.scrape_all InfiniteScrollingItem.beq
      [Except.error (SpiderError.unexpectedError "Failed to scrape subroute"),
       Except.ok
         [{ id := "a", brand := none, uri := none, name := none,
            price := none, category := some "c1" },
          { id := "b", brand := none, uri := none, name := none,
            price := none, category := some "c1" },
          { id := "c", brand := none, uri := none, name := none,
            price := none, category := some "c1" }]] =
      [{ id := "a", brand := none, uri := none, name := none,
         price := none, category := some "c1" },
       { id := "b", brand := none, uri := none, name := none,
         price := none, category := some "c1" },
       { id := "c", brand := none, uri := none, name := none,
         price := none, category := some "c1" }] :=
  scrape_all_failing_subroute_isolated _ _ _ _ (by decide) (by decide)
    (by decide)

/-- C9: `process_all` returns the sum of the per-spider contributions,
a failed spider contributing exactly `0` without stopping the
aggregation of the others. -/
theorem process_all_is_sum (results : List (Except CrawlerError Nat)) :
    process_all results = (results.map spider_count).sum := by
  induction results with
  | nil => rfl
  | cons r rs ih =>
    cases r with
    | error e =>
      simpa [process_all, Except.toOption, spider_count] using ih
    | ok n =>
      simp [process_all, Except.toOption, spider_count] at ih ⊢
      omega

/-- Looking up one key is unaffected by removing a different key. -/
theorem lookup_removeKey (k k2 : String) (h : k ≠ k2) :
    ∀ m : AttrMap, List.lookup k (removeKey m k2) = List.lookup k m := by
  intro m
  induction m with
  | nil => rfl
  | cons p t ih =>
    obtain ⟨a, b⟩ := p
    by_cases hak : a = k2
    · have h1 : ((a, b).1 != k2) = false := by simp [hak]
      have h2 : (k == a) = false := by
        refine beq_eq_false_iff_ne.mpr ?_
        rw [hak]; exact h
      simp only [removeKey, List.filter_cons, h1, List.lookup, h2]
      simp only [Bool.false_eq_true, if_false]
      simpa [removeKey] using ih
    · have h1 : ((a, b).1 != k2) = true := by simp [hak]
      simp only [removeKey, List.filter_cons, h1, if_true, List.lookup]
      cases k == a
      · exact ih
      · rfl

/-- A node whose extraction fails contributes no record to the
deduplicated output of `scrape`. -/
theorem extractItems_skip {α : Type} (tryF : AttrMap → Except SpiderError α)
    (eq : α → α → Bool) (m : AttrMap) (h : (tryF m).toOption = none)
    (l1 l2 : List AttrMap) :
    extractItems tryF eq (l1 ++ m :: l2) = extractItems tryF eq (l1 ++ l2) := by
  simp [extractItems, List.filterMap_append, List.filterMap_cons, h]

/-- A `NoDataExtracted` result carries no record. -/
theorem toOption_none_of_isNoDataError {α : Type}
    (r : Except SpiderError α) (h : isNoDataError r = true) :
    r.toOption = none := by
  cases r with
  | ok v => simp [isNoDataError] at h
  | error e => rfl

/-- C6: an attribute map without the identity key (`data-id`, resp.
`data-sku`) makes extraction fail with the missing-identity error (the
`Failed to obtain item id` context, surfaced as
`SpiderError::UnexpectedError`), and the node contributes no record —
for each of the three spiders. -/
theorem try_from_missing_identity (m m2 : AttrMap)
    (hid : List.lookup "data-id" m = none)
    (hsku : List.lookup "data-sku" m2 = none) (l1 l2 : List AttrMap) :
    (InfiniteScrollingItem.try_from m =
        Except.error (SpiderError.unexpectedError "Failed to obtain item id") ∧
      extractItems InfiniteScrollingItem.try_from InfiniteScrollingItem.beq
          (l1 ++ m :: l2) =
        extractItems InfiniteScrollingItem.try_from InfiniteScrollingItem.beq
          (l1 ++ l2)) ∧
    (MetroItem.try_from m =
        Except.error (SpiderError.unexpectedError "Failed to obtain item id") ∧
      extractItems MetroItem.try_from MetroItem.beq (l1 ++ m :: l2) =
        extractItems MetroItem.try_from MetroItem.beq (l1 ++ l2)) ∧
    (MultipageItem.try_from m2 =
        Except.error (SpiderError.unexpectedError "Failed to obtain item id") ∧
      extractItems MultipageItem.try_from MultipageItem.beq (l1 ++ m2 :: l2) =
        extractItems MultipageItem.try_from MultipageItem.beq (l1 ++ l2)) := by
  have e1 : InfiniteScrollingItem.try_from m =
      Except.error (SpiderError.unexpectedError "Failed to obtain item id") := by
    rw [InfiniteScrollingItem.try_from, hid]
  have e2 : MetroItem.try_from m =
      Except.error (SpiderError.unexpectedError "Failed to obtain item id") := by
    rw [MetroItem.try_from, hid]
  have e3 : MultipageItem.try_from m2 =
      Except.error (SpiderError.unexpectedError "Failed to obtain item id") := by
    rw [MultipageItem.try_from, hsku]
  exact ⟨⟨e1, extractItems_skip _ _ _ (by rw [e1]; rfl) l1 l2⟩,
    ⟨e2, extractItems_skip _ _ _ (by rw [e2]; rfl) l1 l2⟩,
    ⟨e3, extractItems_skip _ _ _ (by rw [e3]; rfl) l1 l2⟩⟩

/-- Witness for C6 on the empty attribute map. -/
theorem try_from_missing_identity_witness :
    InfiniteScrollingItem.try_from [] =
      Except.error (SpiderError.unexpectedError "Failed to obtain item id") :=
  ((try_from_missing_identity [] [] rfl rfl [] []).1).1

/-- C7: an attribute map that has the identity key but none of the
optional fields (`brand`, `uri`, `name`, `price`, `category` — for the
multipage spider: `title`, `.Showcase__brand a`, `category`, `href` and
both price sources) makes extraction fail with `NoDataExtracted` rather
than produce a record, and the node is silently skipped upstream,
contributing nothing — for each of the three spiders. -/
theorem try_from_all_optionals_absent (m : AttrMap) (v : String)
    (hid : List.lookup "data-id" m = some v)
    (hb : List.lookup "data-brand" m = none)
    (hu : List.lookup "data-uri" m = none)
    (hn : List.lookup "data-name" m = none)
    (hp : List.lookup "data-price" m = none)
    (hc : List.lookup "data-category" m = none)
    (m2 : AttrMap) (w : String)
    (hsku : List.lookup "data-sku" m2 = some w)
    (ht : List.lookup "title" m2 = none)
    (hb2 : List.lookup ".Showcase__brand a" m2 = none)
    (hc2 : List.lookup "category" m2 = none)
    (hh2 : List.lookup "href" m2 = none)
    (hp2 : List.lookup "data-price" m2 = none)
    (hs2 : List.lookup ".Showcase__salePrice" m2 = none)
    (l1 l2 : List AttrMap) :
    isNoDataError (InfiniteScrollingItem.try_from m) = true ∧
    isNoDataError (MetroItem.try_from m) = true ∧
    isNoDataError (MultipageItem.try_from m2) = true ∧
    extractItems InfiniteScrollingItem.try_from InfiniteScrollingItem.beq
        (l1 ++ m :: l2) =
      extractItems InfiniteScrollingItem.try_from InfiniteScrollingItem.beq
        (l1 ++ l2) ∧
    extractItems MetroItem.try_from MetroItem.beq (l1 ++ m :: l2) =
      extractItems MetroItem.try_from MetroItem.beq (l1 ++ l2) ∧
    extractItems MultipageItem.try_from MultipageItem.beq (l1 ++ m2 :: l2) =
      extractItems MultipageItem.try_from MultipageItem.beq (l1 ++ l2) := by
  have hb1 : List.lookup "data-brand" (removeKey m "data-id") = none := by
    rw [lookup_removeKey "data-brand" "data-id" (by decide)]
    exact hb
  have hu1 : List.lookup "data-uri"
      (removeKey (removeKey m "data-id") "data-brand") = none := by
    rw [lookup_removeKey "data-uri" "data-brand" (by decide),
      lookup_removeKey "data-uri" "data-id" (by decide)]
    exact hu
  have hn1 : List.lookup "data-name"
      (removeKey (removeKey (removeKey m "data-id") "data-brand")
        "data-uri") = none := by
    rw [lookup_removeKey "data-name" "data-uri" (by decide),
      lookup_removeKey "data-name" "data-brand" (by decide),
      lookup_removeKey "data-name" "data-id" (by decide)]
    exact hn
  have hp1 : List.lookup "data-price"
      (removeKey (removeKey (removeKey (removeKey m "data-id")
        "data-brand") "data-uri") "data-name") = none := by
    rw [lookup_removeKey "data-price" "data-name" (by decide),
      lookup_removeKey "data-price" "data-uri" (by decide),
      lookup_removeKey "data-price" "data-brand" (by decide),
      lookup_removeKey "data-price" "data-id" (by decide)]
    exact hp
  have hc1 : List.lookup "data-category"
      (removeKey (removeKey (removeKey (removeKey (removeKey m "data-id")
        "data-brand") "data-uri") "data-name") "data-price") = none := by
    rw [lookup_removeKey "data-category" "data-price" (by decide),
      lookup_removeKey "data-category" "data-name" (by decide),
      lookup_removeKey "data-category" "data-uri" (by decide),
      lookup_removeKey "data-category" "data-brand" (by decide),
      lookup_removeKey "data-category" "data-id" (by decide)]
    exact hc
  have ht1 : List.lookup "title" (removeKey m2 "data-sku") = none := by
    rw [lookup_removeKey "title" "data-sku" (by decide)]
    exact ht
  have hb21 : List.lookup ".Showcase__brand a"
      (removeKey (removeKey m2 "data-sku") "title") = none := by
    rw [lookup_removeKey ".Showcase__brand a" "title" (by decide),
      lookup_removeKey ".Showcase__brand a" "data-sku" (by decide)]
    exact hb2
  have hc21 : List.lookup "category"
      (removeKey (removeKey (removeKey m2 "data-sku") "title")
        ".Showcase__brand a") = none := by
    rw [lookup_removeKey "category" ".Showcase__brand a" (by decide),
      lookup_removeKey "category" "title" (by decide),
      lookup_removeKey "category" "data-sku" (by decide)]
    exact hc2
  have hh21 : List.lookup "href"
      (removeKey (removeKey (removeKey (removeKey m2 "data-sku") "title")
        ".Showcase__brand a") "category") = none := by
    rw [lookup_removeKey "href" "category" (by decide),
      lookup_removeKey "href" ".Showcase__brand a" (by decide),
      lookup_removeKey "href" "title" (by decide),
      lookup_removeKey "href" "data-sku" (by decide)]
    exact hh2
  have hp21 : List.lookup "data-price"
      (removeKey (removeKey (removeKey (removeKey (removeKey m2 "data-sku")
        "title") ".Showcase__brand a") "category") "href") = none := by
    rw [lookup_removeKey "data-price" "href" (by decide),
      lookup_removeKey "data-price" "category" (by decide),
      lookup_removeKey "data-price" ".Showcase__brand a" (by decide),
      lookup_removeKey "data-price" "title" (by decide),
      lookup_removeKey "data-price" "data-sku" (by decide)]
    exact hp2
  have hs21 : List.lookup ".Showcase__salePrice"
      (removeKey (removeKey (removeKey (removeKey (removeKey m2 "data-sku")
        "title") ".Showcase__brand a") "category") "href") = none := by
    rw [lookup_removeKey ".Showcase__salePrice" "href" (by decide),
      lookup_removeKey ".Showcase__salePrice" "category" (by decide),
      lookup_removeKey ".Showcase__salePrice" ".Showcase__brand a" (by decide),
      lookup_removeKey ".Showcase__salePrice" "title" (by decide),
      lookup_removeKey ".Showcase__salePrice" "data-sku" (by decide)]
    exact hs2
  have eIS : isNoDataError (InfiniteScrollingItem.try_from m) = true := by
    rw [InfiniteScrollingItem.try_from, hid]
    simp [hb1, hu1, hn1, hp1, hc1, isNoDataError]
  have eM : isNoDataError (MetroItem.try_from m) = true := by
    rw [MetroItem.try_from, hid]
    simp [hb1, hu1, hn1, hp1, hc1, isNoDataError]
  have eMP : isNoDataError (MultipageItem.try_from m2) = true := by
    rw [MultipageItem.try_from, hsku]
    simp [ht1, hb21, hc21, hh21, hp21, hs21, isNoDataError, Option.orElse]
  exact ⟨eIS, eM, eMP,
    extractItems_skip _ _ _ (toOption_none_of_isNoDataError _ eIS) l1 l2,
    extractItems_skip _ _ _ (toOption_none_of_isNoDataError _ eM) l1 l2,
    extractItems_skip _ _ _ (toOption_none_of_isNoDataError _ eMP) l1 l2⟩

/-- Witness for C7 on maps holding only the identity key. -/
theorem try_from_all_optionals_absent_witness :
    isNoDataError (InfiniteScrollingItem.try_from [("data-id", "1")]) = true :=
  (try_from_all_optionals_absent [("data-id", "1")] "1" rfl rfl rfl rfl rfl
    rfl [("data-sku", "2")] "2" rfl rfl rfl rfl rfl rfl rfl [] []).1
